import Mathlib

/-!
# GrinchBotV1 — shallow embedding of `MainBot.py`

The program is a single-file Telegram bot (`src/GrinchBotV1/MainBot.py`)
that relays user questions, grounded in a reference file `FAQ.txt`, to a
generative-text API and sends back the answer.

The embedding represents every externally visible action of one event
handling as an `Effect`, and represents the external world (filesystem,
upstream API, rich-text message delivery) as an `Env` record of outcomes.
A handler returns the list of effects it performed together with an
`Except` value: `Except.error` means a Python exception escaped the
handler (it would be caught by the SDK's dispatcher, outside this
program).  Fault injection points are exactly the ones the program's own
`try`/`except` structure distinguishes: presence of the reference file,
the outcome of opening and decoding it, the outcome of the upstream
generative call, and the outcome of delivering the Markdown-formatted
answer (the one send that sits inside a `try` block).  The plain
fixed-text sends are modelled as always-succeeding effects: the program
contains no handling for their failure, so their faults are outside the
modelled code.
-/

/-- One inbound Telegram message, the fields `MainBot.py` reads:
`message.from_user.id`, `message.from_user.full_name`, `message.chat.id`,
`message.text` (absent on non-text messages such as photos). -/
structure Message where
  fromUserId : Int
  fromUserFullName : String
  chatId : Int
  text : Option String
deriving Repr, DecidableEq

/-- A Python exception escaping or raised inside the handlers:
`FileNotFoundError` is the constructor the code raises and catches
specially; every other exception (permission error, decode error, ...)
is `ioError`. -/
inductive PyExc where
  | fileNotFound (msg : String)
  | ioError (msg : String)
deriving Repr, DecidableEq

/-- Externally visible actions of the program, in execution order.
`reply` is a successfully delivered `message.answer` (the `parseMode`
field is the explicitly passed `parse_mode` argument, `none` when the
call relies on the bot default).  `failedReply` is an attempted
`message.answer` that raised inside the handler's `try` block. -/
inductive Effect where
  | log (level : String) (text : String)
  | chatAction (chatId : Int) (action : String)
  | reply (text : String) (parseMode : Option String)
  | failedReply (text : String) (parseMode : Option String)
  | fileRead (path : String)
  | upstreamCall (prompt : String)
deriving Repr, DecidableEq

/-- The external world during the handling of one event:
`fileExists` is what `os.path.exists` reports; `readResult` is the
outcome of `open(...).read()` with UTF-8 decoding when the file exists
(`Except.error` carries the text of a non-`FileNotFoundError` exception
such as a permission or decode error); `gemini` maps a prompt to the
outcome of `GEMINI_MODEL.generate_content_async(prompt).text`;
`sendMarkdownResult` maps an answer text to `none` when delivering the
Markdown-formatted reply succeeds, or to the exception text when the
delivery raises (for instance, rejected markup). -/
structure Env where
  fileExists : Bool
  readResult : Except String String
  gemini : String → Except String String
  sendMarkdownResult : String → Option String

/-- Python `str()` as applied by an f-string to `message.text`:
`None` renders as the string `"None"`, a present string renders as
itself. -/
def pyStr : Option String → String
  | none => "None"
  | some s => s

/-- Python truthiness of an `os.getenv` result: `None` and the empty
string are falsy. -/
def pyTruthy : Option String → Bool
  | none => false
  | some s => !(s == "")

/-- The message text of the `FileNotFoundError` raised by
`load_reference` (`MainBot.py` line 67). -/
def notFoundMsg (file_path : String) : String :=
  "Файл \x27" ++ file_path ++ "\x27 не знайдено."

/-- `load_reference` (`MainBot.py` lines 64-69): checks
`os.path.exists`; raises `FileNotFoundError` when absent; otherwise
opens and reads the whole file as UTF-8.  The read itself can raise a
non-`FileNotFoundError` exception, modelled by `env.readResult`. -/
def load_reference (env : Env) (file_path : String := "FAQ.txt") :
    List Effect × Except PyExc String :=
  if env.fileExists then
    match env.readResult with
    | .ok content => ([.fileRead file_path], .ok content)
    | .error e => ([.fileRead file_path], .error (.ioError e))
  else
    ([], .error (.fileNotFound (notFoundMsg file_path)))

/-- The fixed instruction text that precedes the reference document in
the prompt built by `ask_gemini` (`MainBot.py` lines 73-79), including
the source's double space and spelling. -/
def promptHeader : String :=
  "Ти — Асистент кафедри комп’ютерних наук. " ++
  "Твоє завдання — чітко та лаконічно відповідати на питання студентів та абітурієнтів, " ++
  "спираючись на надану тобі довідкову інформацію. " ++
  "У випадку, якщо питання не містить інформації з довідки,  ввічиливо повідомляй про це. " ++
  "Відпові надавай тільки українською мовою.\n\n" ++
  "--- Довідкова інформація ---\n"

/-- The fixed text between the reference document and the user question
in the prompt built by `ask_gemini` (`MainBot.py` lines 81-82). -/
def promptMiddle : String :=
  "\n--- Кінець довідкової інформації ---\n\n" ++
  "Питання користувача: "

/-- The prompt string built by `ask_gemini` (`MainBot.py` lines 73-83):
fixed instruction, delimited reference text, verbatim question.  This is
the Prompt Composer contract `compose_prompt(question, reference)`. -/
def compose_prompt (question : String) (reference : String) : String :=
  promptHeader ++ reference ++ promptMiddle ++ question

/-- `ask_gemini` (`MainBot.py` lines 71-86): builds the prompt
(an f-string, so a `None` question renders as `"None"`), performs one
upstream call, and returns the generated text or raises. -/
def ask_gemini (env : Env) (question : Option String) (reference : String) :
    List Effect × Except String String :=
  let prompt := compose_prompt (pyStr question) reference
  ([.upstreamCall prompt], env.gemini prompt)

/-- The greeting text sent by `handle_start` (`MainBot.py` lines 94-97). -/
def greetingText : String :=
  "Привіт! Я - асистент кафедри комп’ютерних наук.\n\n" ++
  "Чим можу допомогти? Напишіть своє питання"

/-- The missing-file notice sent by `handle_text` (`MainBot.py` line 109). -/
def missingFileText : String :=
  "Файл `FAQ.txt`. Будь ласка, перевірте його наявність."

/-- The generic-failure notice sent by `handle_text` (`MainBot.py` line 118). -/
def genericFailureText : String :=
  "Виникла помилка при обробці вашого запиту. Спробуйте ще раз пізніше."

/-- `handle_start` (`MainBot.py` lines 90-97): logs the sender and sends
the fixed greeting. -/
def handle_start (message : Message) : List Effect × Except PyExc Unit :=
  ([.log "INFO" ("Користувач " ++ toString message.fromUserId ++ " (" ++
      message.fromUserFullName ++ ") запустив бота командою /start."),
    .reply greetingText none], .ok ())

/-- `handle_text` (`MainBot.py` lines 99-118): logs, emits the typing
presence indicator, loads the reference (replying with the fixed
missing-file notice on `FileNotFoundError`; any other load exception
escapes), calls `ask_gemini` and delivers the answer as Markdown; any
exception out of that `try` block (upstream failure or failed delivery)
is logged and answered with the fixed generic-failure notice. -/
def handle_text (env : Env) (message : Message) : List Effect × Except PyExc Unit :=
  let recvLog := Effect.log "INFO" ("Отримано повідомлення від " ++
    toString message.fromUserId ++ ": \x27" ++ pyStr message.text ++ "\x27")
  let typing := Effect.chatAction message.chatId "typing"
  match load_reference env with
  | (fx, .error (.fileNotFound m)) =>
      (recvLog :: typing :: (fx ++ [.log "ERROR" m, .reply missingFileText none]), .ok ())
  | (fx, .error (.ioError m)) =>
      (recvLog :: typing :: fx, .error (.ioError m))
  | (fx, .ok reference_text) =>
      match ask_gemini env message.text reference_text with
      | (gx, .error e) =>
          (recvLog :: typing :: (fx ++ gx ++
            [.log "ERROR" ("Помилка Gemini API " ++ toString message.fromUserId ++ ": " ++ e),
             .reply genericFailureText none]), .ok ())
      | (gx, .ok answer) =>
          match env.sendMarkdownResult answer with
          | none =>
              (recvLog :: typing :: (fx ++ gx ++
                [.reply answer (some "Markdown"),
                 .log "INFO" ("Надано відповідь для " ++ toString message.fromUserId ++ ".")]), .ok ())
          | some e =>
              (recvLog :: typing :: (fx ++ gx ++
                [.failedReply answer (some "Markdown"),
                 .log "ERROR" ("Помилка Gemini API " ++ toString message.fromUserId ++ ": " ++ e),
                 .reply genericFailureText none]), .ok ())

/-- Modelled from the spec: the Message Dispatcher "classifies them
(command vs free text)".  The command filter registered at
`MainBot.py` line 90 is the external SDK's `Command("start")`, which
matches exactly the events whose text is present and is the `/start`
command: bare, followed by arguments, or carrying a bot mention.
Events without text never match a command filter. -/
def matchesStartCommand : Option String → Bool
  | none => false
  | some t =>
    t == "/start" ||
    List.isPrefixOf ("/start ").data t.data ||
    List.isPrefixOf ("/start@").data t.data

/-- The Message Dispatcher routing induced by the registration order in
`MainBot.py`: `handle_start` for `/start` command events (line 90),
`handle_text` for every other message event (line 99). -/
def dispatch (env : Env) (message : Message) : List Effect × Except PyExc Unit :=
  if matchesStartCommand message.text then handle_start message
  else handle_text env message

/-- The outbound chat replies actually delivered, in order. -/
def sentReplies (effects : List Effect) : List (String × Option String) :=
  effects.filterMap fun e => match e with
    | .reply t pm => some (t, pm)
    | _ => none

/-- Every outbound reply attempt, delivered or raised. -/
def replyAttempts (effects : List Effect) : List (String × Option String) :=
  effects.filterMap fun e => match e with
    | .reply t pm => some (t, pm)
    | .failedReply t pm => some (t, pm)
    | _ => none

/-- The prompts sent upstream, in order. -/
def upstreamCalls (effects : List Effect) : List String :=
  effects.filterMap fun e => match e with
    | .upstreamCall p => some p
    | _ => none

/-- The files opened for reading, in order. -/
def fileReads (effects : List Effect) : List String :=
  effects.filterMap fun e => match e with
    | .fileRead p => some p
    | _ => none

/-- C2: for every pair of strings, the composed prompt contains the
question verbatim and the reference verbatim as substrings, and prompt
composition is deterministic: equal inputs give character-for-character
equal prompts. -/
theorem compose_prompt_spec (question reference : String) :
    question.data <:+: (compose_prompt question reference).data ∧
    reference.data <:+: (compose_prompt question reference).data ∧
    (∀ q r : String, q = question → r = reference →
      compose_prompt q r = compose_prompt question reference) := by
  refine ⟨⟨(promptHeader ++ reference ++ promptMiddle).data, [], ?_⟩,
          ⟨promptHeader.data, (promptMiddle ++ question).data, ?_⟩,
          fun q r hq hr => by rw [hq, hr]⟩
  · simp [compose_prompt, String.data_append]
  · simp [compose_prompt, String.data_append]

/-- C2 witness at the spec's own scenario strings. -/
theorem compose_prompt_spec_witness :
    ("When are office hours?" : String).data <:+:
      (compose_prompt "When are office hours?" "Office hours: Mon-Fri 9-5.").data ∧
    ("Office hours: Mon-Fri 9-5." : String).data <:+:
      (compose_prompt "When are office hours?" "Office hours: Mon-Fri 9-5.").data :=
  ⟨(compose_prompt_spec "When are office hours?" "Office hours: Mon-Fri 9-5.").1,
   (compose_prompt_spec "When are office hours?" "Office hours: Mon-Fri 9-5.").2.1⟩

/-- The critical log line of the module-level credential check
(`MainBot.py` line 52). -/
def missingTokensLog : String :=
  "Не вдалося знайти TELEGRAM_TOKEN або GEMINI_API_KEY у змінних середовища."

/-- The `exit` message of the module-level credential check
(`MainBot.py` line 53). -/
def missingTokensExit : String :=
  "Помилка: Відсутні необхідні токени. Перевірте файл .env або змінні середовища."

/-- The process environment read at startup: the `os.getenv` results for
the two required credentials (`MainBot.py` lines 48-49). -/
structure StartupEnv where
  telegram_token : Option String
  gemini_api_key : Option String
deriving Repr, DecidableEq

/-- What the module-level code reaches: either `exit(...)` before the
bot object is even created, or the polling loop. -/
inductive StartupOutcome where
  | exited (message : String)
  | polling
deriving Repr, DecidableEq

/-- The module-level startup check (`MainBot.py` lines 48-53): if either
credential is falsy (`None` or empty), log a critical error and exit;
otherwise the module goes on to construct the bot and start polling. -/
def startupCheck (env : StartupEnv) : List Effect × StartupOutcome :=
  if !pyTruthy env.telegram_token || !pyTruthy env.gemini_api_key then
    ([.log "CRITICAL" missingTokensLog], .exited missingTokensExit)
  else
    ([], .polling)

/-- Whether startup reaches the polling loop, i.e. whether any inbound
event can ever be processed. -/
def pollingStarts (env : StartupEnv) : Bool :=
  (startupCheck env).2 == .polling

/- Concrete fixtures used by witnesses and counterexamples. -/

/-- A healthy environment: the reference file is present and readable,
the upstream call succeeds, the Markdown delivery succeeds. -/
def okEnv : Env where
  fileExists := true
  readResult := .ok "Office hours: Mon-Fri 9-5."
  gemini := fun _ => .ok "Office hours are Monday to Friday, 9 to 5."
  sendMarkdownResult := fun _ => none

/-- The healthy environment with the reference file absent. -/
def noFileEnv : Env :=
  { okEnv with fileExists := false }

/-- The healthy environment with the file present but unreadable
(a permission error raised by `open`). -/
def permErrEnv : Env :=
  { okEnv with readResult := .error "PermissionError: Permission denied: \x27FAQ.txt\x27" }

/-- The healthy environment with a failing upstream call. -/
def geminiErrEnv : Env :=
  { okEnv with gemini := fun _ => .error "429 Resource has been exhausted" }

/-- The healthy environment where delivering the Markdown answer raises. -/
def sendErrEnv : Env :=
  { okEnv with sendMarkdownResult := fun _ => some "TelegramBadRequest: can not parse entities" }

/-- A free-text inbound message. -/
def questionMsg : Message where
  fromUserId := 42
  fromUserFullName := "Тарас"
  chatId := 7
  text := some "When are office hours?"

/-- A `/start` command message. -/
def startMsg : Message :=
  { questionMsg with text := some "/start" }

/-- A message without a text field (for example a photo). -/
def textlessMsg : Message :=
  { questionMsg with text := none }

/-- C3: when the reference file is absent, a free-text event gets
exactly one reply, the fixed missing-file notice; the upstream is never
called; the handler returns normally with the reply as its last
action. -/
theorem handle_text_missing_file (env : Env) (message : Message)
    (h : env.fileExists = false) :
    sentReplies (handle_text env message).1 = [(missingFileText, none)] ∧
    upstreamCalls (handle_text env message).1 = [] ∧
    (handle_text env message).2 = .ok () ∧
    (handle_text env message).1.getLast? = some (.reply missingFileText none) := by
  simp [handle_text, load_reference, h, sentReplies, upstreamCalls]

/-- C3 witness: the absent-file environment on a concrete question. -/
theorem handle_text_missing_file_witness :
    noFileEnv.fileExists = false ∧
    (sentReplies (handle_text noFileEnv questionMsg).1 = [(missingFileText, none)] ∧
     upstreamCalls (handle_text noFileEnv questionMsg).1 = [] ∧
     (handle_text noFileEnv questionMsg).2 = .ok () ∧
     (handle_text noFileEnv questionMsg).1.getLast? =
       some (.reply missingFileText none)) :=
  ⟨rfl, handle_text_missing_file noFileEnv questionMsg rfl⟩

/-- C5: `load_reference` fails with `FileNotFoundError` exactly when the
file is absent; that failure is a different constructor from every other
read error; and when the file is present and readable the whole decoded
content is returned. -/
theorem load_reference_spec (env : Env) (path : String) :
    ((∃ m, (load_reference env path).2 = .error (.fileNotFound m)) ↔
      env.fileExists = false) ∧
    (∀ c, env.fileExists = true → env.readResult = .ok c →
      (load_reference env path).2 = .ok c) ∧
    (∀ e, env.fileExists = true → env.readResult = .error e →
      (load_reference env path).2 = .error (.ioError e)) ∧
    (∀ m m', PyExc.fileNotFound m ≠ PyExc.ioError m') := by
  refine ⟨⟨fun ⟨m, hm⟩ => ?_, fun h => ⟨notFoundMsg path, ?_⟩⟩,
          fun c hex hrd => ?_, fun e hex hrd => ?_, fun m m' => by simp⟩
  · by_contra hne
    rw [Bool.not_eq_false] at hne
    rcases hr : env.readResult with c | e <;>
      simp [load_reference, hne, hr] at hm
  · simp [load_reference, h]
  · simp [load_reference, hex, hrd]
  · simp [load_reference, hex, hrd]

/-- C5 witness: the healthy environment gives back the file content;
the absent-file environment gives `FileNotFoundError`. -/
theorem load_reference_spec_witness :
    okEnv.fileExists = true ∧ okEnv.readResult = .ok "Office hours: Mon-Fri 9-5." ∧
    (load_reference okEnv "FAQ.txt").2 = .ok "Office hours: Mon-Fri 9-5." ∧
    ((∃ m, (load_reference noFileEnv "FAQ.txt").2 = .error (.fileNotFound m)) ↔
      noFileEnv.fileExists = false) :=
  ⟨rfl, rfl,
   (load_reference_spec okEnv "FAQ.txt").2.1 "Office hours: Mon-Fri 9-5." rfl rfl,
   (load_reference_spec noFileEnv "FAQ.txt").1⟩

/-- C7: a `/start` command event gets exactly one reply, the fixed
greeting, and causes no file read and no upstream call. -/
theorem dispatch_start_greeting (env : Env) (message : Message)
    (h : matchesStartCommand message.text = true) :
    sentReplies (dispatch env message).1 = [(greetingText, none)] ∧
    fileReads (dispatch env message).1 = [] ∧
    upstreamCalls (dispatch env message).1 = [] ∧
    (dispatch env message).2 = .ok () := by
  simp [dispatch, h, handle_start, sentReplies, fileReads, upstreamCalls]

/-- C7 witness: the literal `/start` message in the healthy
environment. -/
theorem dispatch_start_greeting_witness :
    matchesStartCommand startMsg.text = true ∧
    (sentReplies (dispatch okEnv startMsg).1 = [(greetingText, none)] ∧
     fileReads (dispatch okEnv startMsg).1 = [] ∧
     upstreamCalls (dispatch okEnv startMsg).1 = [] ∧
     (dispatch okEnv startMsg).2 = .ok ()) :=
  ⟨by decide, dispatch_start_greeting okEnv startMsg (by decide)⟩

/-- C4: when the upstream call raises, whatever the error text, the
event gets exactly one reply, the fixed generic-failure notice — a
constant independent of the error, so the raw error text is never part
of a reply — and the handler returns normally. -/
theorem handle_text_upstream_error (env : Env) (message : Message) (ref e : String)
    (hex : env.fileExists = true) (hrd : env.readResult = .ok ref)
    (hg : env.gemini (compose_prompt (pyStr message.text) ref) = .error e) :
    sentReplies (handle_text env message).1 = [(genericFailureText, none)] ∧
    (∀ r ∈ sentReplies (handle_text env message).1, r.1 = genericFailureText) ∧
    (handle_text env message).2 = .ok () := by
  refine ⟨?_, ?_, ?_⟩ <;>
    simp [handle_text, load_reference, ask_gemini, hex, hrd, hg, sentReplies]

/-- C4 witness: a quota error from the upstream on a concrete
question. -/
theorem handle_text_upstream_error_witness :
    geminiErrEnv.fileExists = true ∧
    geminiErrEnv.readResult = .ok "Office hours: Mon-Fri 9-5." ∧
    geminiErrEnv.gemini
      (compose_prompt (pyStr questionMsg.text) "Office hours: Mon-Fri 9-5.") =
      .error "429 Resource has been exhausted" ∧
    sentReplies (handle_text geminiErrEnv questionMsg).1 =
      [(genericFailureText, none)] :=
  ⟨rfl, rfl, rfl,
   (handle_text_upstream_error geminiErrEnv questionMsg
      "Office hours: Mon-Fri 9-5." "429 Resource has been exhausted"
      rfl rfl rfl).1⟩

/-- C8: when the file exists but reading or decoding it raises anything
other than `FileNotFoundError`, the exception escapes the handler, no
reply of any kind is attempted, and the upstream is never called. -/
theorem handle_text_read_error_escapes (env : Env) (message : Message) (e : String)
    (hex : env.fileExists = true) (hrd : env.readResult = .error e) :
    (handle_text env message).2 = .error (.ioError e) ∧
    replyAttempts (handle_text env message).1 = [] ∧
    upstreamCalls (handle_text env message).1 = [] := by
  refine ⟨?_, ?_, ?_⟩ <;>
    simp [handle_text, load_reference, hex, hrd, replyAttempts, upstreamCalls]

/-- C8 witness: a permission error on a concrete question. -/
theorem handle_text_read_error_escapes_witness :
    permErrEnv.fileExists = true ∧
    permErrEnv.readResult =
      .error "PermissionError: Permission denied: \x27FAQ.txt\x27" ∧
    (handle_text permErrEnv questionMsg).2 =
      .error (.ioError "PermissionError: Permission denied: \x27FAQ.txt\x27") ∧
    replyAttempts (handle_text permErrEnv questionMsg).1 = [] :=
  ⟨rfl, rfl,
   (handle_text_read_error_escapes permErrEnv questionMsg _ rfl rfl).1,
   (handle_text_read_error_escapes permErrEnv questionMsg _ rfl rfl).2.1⟩

/-- C9: delivering the successful answer happens inside the same `try`
block as the upstream call, so when the Markdown delivery raises, the
handler still sends the fixed generic-failure notice — the one reply
actually delivered for the event. -/
theorem handle_text_send_failure_generic (env : Env) (message : Message)
    (ref answer e : String)
    (hex : env.fileExists = true) (hrd : env.readResult = .ok ref)
    (hg : env.gemini (compose_prompt (pyStr message.text) ref) = .ok answer)
    (hs : env.sendMarkdownResult answer = some e) :
    sentReplies (handle_text env message).1 = [(genericFailureText, none)] ∧
    Effect.failedReply answer (some "Markdown") ∈ (handle_text env message).1 ∧
    (handle_text env message).2 = .ok () := by
  refine ⟨?_, ?_, ?_⟩ <;>
    simp [handle_text, load_reference, ask_gemini, hex, hrd, hg, hs, sentReplies]

/-- C9 witness: rejected markup on a concrete question. -/
theorem handle_text_send_failure_generic_witness :
    sendErrEnv.fileExists = true ∧
    sendErrEnv.sendMarkdownResult "Office hours are Monday to Friday, 9 to 5." =
      some "TelegramBadRequest: can not parse entities" ∧
    sentReplies (handle_text sendErrEnv questionMsg).1 =
      [(genericFailureText, none)] :=
  ⟨rfl, rfl,
   (handle_text_send_failure_generic sendErrEnv questionMsg
      "Office hours: Mon-Fri 9-5." "Office hours are Monday to Friday, 9 to 5."
      "TelegramBadRequest: can not parse entities" rfl rfl rfl rfl).1⟩

/-- C6: when either credential is missing from the environment, startup
logs a critical error and exits; the polling loop never starts, so no
inbound event is ever processed. -/
theorem startup_missing_credentials (env : StartupEnv)
    (h : env.telegram_token = none ∨ env.gemini_api_key = none) :
    startupCheck env =
      ([.log "CRITICAL" missingTokensLog], .exited missingTokensExit) ∧
    pollingStarts env = false := by
  rcases h with h | h <;>
    simp [startupCheck, pollingStarts, h, pyTruthy]

/-- C6 witness: only the bot token present. -/
theorem startup_missing_credentials_witness :
    ((StartupEnv.mk (some "123:abc") none).telegram_token = none ∨
     (StartupEnv.mk (some "123:abc") none).gemini_api_key = none) ∧
    pollingStarts (StartupEnv.mk (some "123:abc") none) = false :=
  ⟨Or.inr rfl,
   (startup_missing_credentials (StartupEnv.mk (some "123:abc") none)
      (Or.inr rfl)).2⟩

/-- C10: an event whose text field is absent never matches the command
filter, is routed to the free-text handler, and (when the reference
loads) runs the full pipeline with the question rendered as the string
`"None"` inside the composed prompt sent upstream. -/
theorem dispatch_textless_pipeline (env : Env) (message : Message) (ref : String)
    (ht : message.text = none)
    (hex : env.fileExists = true) (hrd : env.readResult = .ok ref) :
    matchesStartCommand message.text = false ∧
    dispatch env message = handle_text env message ∧
    upstreamCalls (dispatch env message).1 = [compose_prompt "None" ref] ∧
    ("None" : String).data <:+: (compose_prompt (pyStr message.text) ref).data := by
  have hm : matchesStartCommand message.text = false := by rw [ht]; rfl
  refine ⟨hm, by simp [dispatch, hm], ?_, ?_⟩
  · cases hg : env.gemini (compose_prompt "None" ref) with
    | error e =>
        simp [dispatch, hm, handle_text, load_reference, ask_gemini, hex, hrd, hg,
          ht, pyStr, matchesStartCommand, upstreamCalls]
    | ok a =>
        cases hs : env.sendMarkdownResult a with
        | none =>
            simp [dispatch, hm, handle_text, load_reference, ask_gemini, hex, hrd,
              hg, hs, ht, pyStr, matchesStartCommand, upstreamCalls]
        | some e =>
            simp [dispatch, hm, handle_text, load_reference, ask_gemini, hex, hrd,
              hg, hs, ht, pyStr, matchesStartCommand, upstreamCalls]
  · exact ⟨(promptHeader ++ ref ++ promptMiddle).data, [], by
      rw [ht]; simp [compose_prompt, pyStr, String.data_append]⟩

/-- C10 witness: the textless message in the healthy environment. -/
theorem dispatch_textless_pipeline_witness :
    textlessMsg.text = none ∧
    upstreamCalls (dispatch okEnv textlessMsg).1 =
      [compose_prompt "None" "Office hours: Mon-Fri 9-5."] :=
  ⟨rfl,
   (dispatch_textless_pipeline okEnv textlessMsg "Office hours: Mon-Fri 9-5."
      rfl rfl rfl).2.2.1⟩

/-- C1 counterexample: with the reference file present but unreadable
(a permission error), a handled free-text event produces zero outbound
replies — the claimed "exactly one reply" is false at this input. -/
theorem dispatch_exactly_one_reply_cex :
    sentReplies (dispatch permErrEnv questionMsg).1 = [] ∧
    (sentReplies (dispatch permErrEnv questionMsg).1).length ≠ 1 := by
  constructor <;> decide

/-- C1 (amended): for every handled message event, provided reading the
reference file does not fail with an error other than file-not-found
(the file is either absent, or present and readable), handling delivers
exactly one outbound reply, and it is the greeting, the missing-file
notice, the generic-failure notice, or an answer returned by the
upstream. -/
theorem dispatch_exactly_one_reply (env : Env) (message : Message)
    (h : env.fileExists = true → ∃ c, env.readResult = Except.ok c) :
    ∃ t pm, sentReplies (dispatch env message).1 = [(t, pm)] ∧
      (t = greetingText ∨ t = missingFileText ∨ t = genericFailureText ∨
       ∃ p a, env.gemini p = Except.ok a ∧ t = a) := by
  by_cases hm : matchesStartCommand message.text
  · exact ⟨greetingText, none,
      by simp [dispatch, hm, handle_start, sentReplies], Or.inl rfl⟩
  · cases hex : env.fileExists with
    | false =>
        exact ⟨missingFileText, none,
          by simp [dispatch, hm, handle_text, load_reference, hex, sentReplies],
          Or.inr (Or.inl rfl)⟩
    | true =>
        obtain ⟨c, hc⟩ := h hex
        cases hg : env.gemini (compose_prompt (pyStr message.text) c) with
        | error e =>
            exact ⟨genericFailureText, none,
              by simp [dispatch, hm, handle_text, load_reference, ask_gemini,
                   hex, hc, hg, sentReplies],
              Or.inr (Or.inr (Or.inl rfl))⟩
        | ok a =>
            cases hs : env.sendMarkdownResult a with
            | none =>
                exact ⟨a, some "Markdown",
                  by simp [dispatch, hm, handle_text, load_reference, ask_gemini,
                       hex, hc, hg, hs, sentReplies],
                  Or.inr (Or.inr (Or.inr ⟨_, a, hg, rfl⟩))⟩
            | some e =>
                exact ⟨genericFailureText, none,
                  by simp [dispatch, hm, handle_text, load_reference, ask_gemini,
                       hex, hc, hg, hs, sentReplies],
                  Or.inr (Or.inr (Or.inl rfl))⟩

/-- C1 witness: the healthy environment on a concrete question. -/
theorem dispatch_exactly_one_reply_witness :
    (okEnv.fileExists = true → ∃ c, okEnv.readResult = Except.ok c) ∧
    (∃ t pm, sentReplies (dispatch okEnv questionMsg).1 = [(t, pm)] ∧
      (t = greetingText ∨ t = missingFileText ∨ t = genericFailureText ∨
       ∃ p a, okEnv.gemini p = Except.ok a ∧ t = a)) :=
  ⟨fun _ => ⟨"Office hours: Mon-Fri 9-5.", rfl⟩,
   dispatch_exactly_one_reply okEnv questionMsg
     (fun _ => ⟨"Office hours: Mon-Fri 9-5.", rfl⟩)⟩
